import Mathlib

/-!
Verification of the Spack `libxc` package recipe
(`var/spack/repos/builtin/packages/libxc/package.py`).

The recipe is a declarative package definition: a version/sha256 table,
variant and conflict declarations, an environment preparer
(`setup_build_environment`), a configure-argument builder
(`configure_args`) and a library locator (the `libs` property).  We embed
each of these as executable Lean definitions and prove the spec claims
about them.
-/

namespace Libxc

/-- A release version, as the dotted numeric tuple Spack parses from the
version string: `Version("4.3.4")` becomes `[4, 3, 4]`.  Spack compares
numeric versions like Python tuples, lexicographically. -/
abbrev SpackVersion := List Nat

/-- Lexicographic (Python-tuple style) strict order on numeric versions,
as Spack compares the purely numeric versions this package declares. -/
def versionLt : SpackVersion → SpackVersion → Bool
  | [], [] => false
  | [], _ :: _ => true
  | _ :: _, [] => false
  | a :: as, b :: bs =>
    if a < b then true
    else if b < a then false
    else versionLt as bs

/-- The selected state of one build instance of the package, read-only
during the build: the concretized version, the boolean `shared` and
`cuda` variants, the multi-valued `cuda_arch` variant (its `.value` is a
tuple of strings; the code reads `value[0]`), and the compiler name the
instance was concretized with. -/
structure Spec where
  version : SpackVersion
  shared : Bool
  cuda : Bool
  cuda_arch : List String
  compilerName : String
deriving Repr, DecidableEq

/-- Default of the `shared` variant, from
`variant('shared', default=True, ...)`. -/
def sharedDefault : Bool := true

/-- The version/checksum table, from the `version(...)` declarations, in
declaration order: each entry pairs a version string with its sha256. -/
def versionTable : List (String × String) :=
  [ ("5.0.0", "1cdc57930f7b57da4eb9b2c55a50ba1c2c385936ddaf5582fee830994461a892"),
    ("4.3.4", "a8ee37ddc5079339854bd313272856c9d41a27802472ee9ae44b58ee9a298337"),
    ("4.3.2", "bc159aea2537521998c7fb1199789e1be71e04c4b7758d58282622e347603a6f"),
    ("4.2.3", "02e49e9ba7d21d18df17e9e57eae861e6ce05e65e966e1e832475aa09e344256"),
    ("3.0.0", "5542b99042c09b2925f2e3700d769cda4fb411b476d446c833ea28c6bfa8792a"),
    ("2.2.2", "6ca1d0bb5fdc341d59960707bc67f23ad54de8a6018e19e02eee2b16ea7cc642"),
    ("2.2.1", "ade61c1fa4ed238edd56408fd8ee6c2e305a3d5753e160017e2a71817c98fd00") ]

/-- One declared conflict rule: a trigger predicate over the concretized
spec, and the human-readable message. -/
structure ConflictRule where
  trigger : Spec → Bool
  msg : String

/-- Whether a spec lies in the Spack version range `@:4` of the second
conflict declaration: every release up to and including the 4.x series,
i.e. every numeric version strictly below 5. -/
def versionAtMost4 (v : SpackVersion) : Bool := versionLt v [5]

/-- The two `conflicts(...)` declarations of the recipe, in declaration
order: `conflicts('+shared +cuda', msg='Only ~shared supported with +cuda')`
and `conflicts('+cuda', when='@:4', msg='CUDA support only in libxc 5.0.0
and above')`. -/
def libxcConflicts : List ConflictRule :=
  [ ⟨fun s => s.shared && s.cuda, "Only ~shared supported with +cuda"⟩,
    ⟨fun s => s.cuda && versionAtMost4 s.version,
      "CUDA support only in libxc 5.0.0 and above"⟩ ]

/-- Modelled from the spec: the external orchestrator evaluates the
declared conflict rules against the concretized spec before invoking any
build step, and aborts with the declared message of every rule whose
trigger holds ("Conflict rule: (predicate over selected variants,
human-readable message). Evaluated before build; violation aborts.").
This returns the messages of the triggered rules; the build is rejected
before compilation exactly when the list is nonempty. -/
def triggeredConflicts (s : Spec) : List String :=
  (libxcConflicts.filter fun c => c.trigger s).map ConflictRule.msg

/-- Modelled from the spec: the query `find_libraries(libraries,
root=self.prefix, shared=shared, recursive=True)` that the `libs`
property hands to the framework search ("Recursively search the prefix
for matching library files").  The search itself lives in Spack core,
outside this recipe; we record the arguments the recipe passes to it. -/
structure LibraryQuery where
  names : List String
  shared : Bool
  recursive : Bool
deriving Repr, DecidableEq

/-- The `libs` property of the recipe: from the caller-supplied extra
query parameters, build the list of library names (prepending the
fortran binding names when `"fortran"` is queried, one below version
4.0.0 and two at or above it), decide shared-vs-static from the `shared`
variant and the presence of `"static"` among the query parameters, and
hand both to the recursive framework search over the prefix. -/
def libs (s : Spec) (query_parameters : List String) : LibraryQuery :=
  let libraries := ["libxc"]
  let shared := s.shared && !(query_parameters.contains "static")
  let libraries :=
    if query_parameters.contains "fortran" then
      if versionLt s.version [4, 0, 0] then
        ["libxcf90"] ++ libraries
      else
        ["libxcf90", "libxcf03"] ++ libraries
    else libraries
  ⟨libraries, shared, true⟩

/-- The `configure_args` method: the two-element flag list selecting
shared-library and cuda support from the corresponding variants. -/
def configure_args (s : Spec) : List String :=
  [ if s.shared then "--enable-shared" else "--disable-shared",
    if s.cuda then "--enable-cuda" else "--disable-cuda" ]

/-- Claim C1: the libs locator searches for shared libraries if and only
if the `shared` variant is selected and `"static"` is not among the
query parameters; with the default variant value and no extra query
parameters it searches shared artifacts, and whenever `"static"` is
queried it searches static artifacts regardless of the variant. -/
theorem claim_C1 (s : Spec) (qp : List String) :
    ((libs s qp).shared = true ↔ (s.shared = true ∧ "static" ∉ qp)) ∧
    (s.shared = sharedDefault → (libs s []).shared = true) ∧
    ("static" ∈ qp → (libs s qp).shared = false) := by
  refine ⟨?_, ?_, ?_⟩
  · simp [libs]
  · intro h
    simp [libs, h, sharedDefault]
  · intro h
    simp [libs, h]

/-- Concrete instance of claim C1: a default-shared spec with query
parameters `["static"]` searches static artifacts, and with no query
parameters searches shared artifacts. -/
theorem claim_C1_witness :
    (libs ⟨[5, 0, 0], true, false, ["none"], "gcc"⟩ ["static"]).shared = false ∧
    (libs ⟨[5, 0, 0], true, false, ["none"], "gcc"⟩ []).shared = true := by
  refine ⟨(claim_C1 ⟨[5, 0, 0], true, false, ["none"], "gcc"⟩ ["static"]).2.2 ?_,
    (claim_C1 ⟨[5, 0, 0], true, false, ["none"], "gcc"⟩ []).2.1 ?_⟩
  · decide
  · decide

/-- Claim C2: when `"fortran"` is among the query parameters, versions
strictly below 4.0.0 get exactly the one binding name `libxcf90`
prepended to the base name, and versions at or above 4.0.0 get exactly
the two binding names `libxcf90`, `libxcf03` prepended. -/
theorem claim_C2 (s : Spec) (qp : List String) (h : "fortran" ∈ qp) :
    (versionLt s.version [4, 0, 0] = true →
      (libs s qp).names = ["libxcf90", "libxc"]) ∧
    (versionLt s.version [4, 0, 0] = false →
      (libs s qp).names = ["libxcf90", "libxcf03", "libxc"]) := by
  constructor
  · intro hv
    simp [libs, h, hv]
  · intro hv
    simp [libs, h, hv]

/-- Concrete instance of claim C2: a fortran query at version 3.0.0
yields `[libxcf90, libxc]`, and at version 5.0.0 yields
`[libxcf90, libxcf03, libxc]`. -/
theorem claim_C2_witness :
    (libs ⟨[3, 0, 0], true, false, ["none"], "gcc"⟩ ["fortran"]).names =
      ["libxcf90", "libxc"] ∧
    (libs ⟨[5, 0, 0], true, false, ["none"], "gcc"⟩ ["fortran"]).names =
      ["libxcf90", "libxcf03", "libxc"] := by
  refine ⟨(claim_C2 ⟨[3, 0, 0], true, false, ["none"], "gcc"⟩ ["fortran"] ?_).1 ?_,
    (claim_C2 ⟨[5, 0, 0], true, false, ["none"], "gcc"⟩ ["fortran"] ?_).2 ?_⟩
  · decide
  · decide
  · decide
  · decide

/-- Claim C5: `configure_args` returns exactly the ordered two-element
list `--enable-shared`/`--disable-shared` by the `shared` variant
followed by `--enable-cuda`/`--disable-cuda` by the `cuda` variant. -/
theorem claim_C5 (s : Spec) :
    (configure_args s).length = 2 ∧
    configure_args s =
      [ if s.shared = true then "--enable-shared" else "--disable-shared",
        if s.cuda = true then "--enable-cuda" else "--disable-cuda" ] := by
  cases hs : s.shared <;> cases hc : s.cuda <;>
    simp [configure_args, hs, hc]

/-- Claim C8: the version table maps each declared version string to a
unique fixed sha256; in particular 5.0.0 maps to its published checksum,
no version string repeats, and no two versions share a checksum. -/
theorem claim_C8 :
    (versionTable.map Prod.fst).Nodup ∧
    (versionTable.map Prod.snd).Nodup ∧
    versionTable.lookup "5.0.0" =
      some "1cdc57930f7b57da4eb9b2c55a50ba1c2c385936ddaf5582fee830994461a892" ∧
    versionTable.lookup "4.3.4" =
      some "a8ee37ddc5079339854bd313272856c9d41a27802472ee9ae44b58ee9a298337" ∧
    versionTable.lookup "4.3.2" =
      some "bc159aea2537521998c7fb1199789e1be71e04c4b7758d58282622e347603a6f" ∧
    versionTable.lookup "4.2.3" =
      some "02e49e9ba7d21d18df17e9e57eae861e6ce05e65e966e1e832475aa09e344256" ∧
    versionTable.lookup "3.0.0" =
      some "5542b99042c09b2925f2e3700d769cda4fb411b476d446c833ea28c6bfa8792a" ∧
    versionTable.lookup "2.2.2" =
      some "6ca1d0bb5fdc341d59960707bc67f23ad54de8a6018e19e02eee2b16ea7cc642" ∧
    versionTable.lookup "2.2.1" =
      some "ade61c1fa4ed238edd56408fd8ee6c2e305a3d5753e160017e2a71817c98fd00" := by
  decide

/-- Claim C10: whatever the query parameters and spec, the name list the
locator passes to the search contains `libxc`, and `libxc` is its last
element (binding names are only ever prepended). -/
theorem claim_C10 (s : Spec) (qp : List String) :
    "libxc" ∈ (libs s qp).names ∧
    (libs s qp).names.getLast? = some "libxc" := by
  unfold libs
  by_cases hf : "fortran" ∈ qp <;>
    by_cases hv : versionLt s.version [4, 0, 0] = true <;>
      simp [hf, hv]

/-- Modelled from the spec: the build-environment variable set the
orchestrator hands to `setup_build_environment` ("Output: mutated
build-environment variable set (flags appended, tools overridden)").
A variable is either unset (`none`) or holds a string value. -/
def Env : Type := String → Option String

/-- Modelled from the spec: `env.set(k, v)` overrides variable `k` with
value `v` ("tools overridden"). -/
def envSet (e : Env) (k v : String) : Env :=
  fun x => if x = k then some v else e x

/-- The value of a flag variable after appending one more flag string:
the flag itself when the variable was unset, otherwise the old value
with the flag joined by a single space. -/
def appendedVal : Option String → String → String
  | none, v => v
  | some old, v => old ++ " " ++ v

/-- Modelled from the spec: `env.append_flags(k, v)` appends flag string
`v` to variable `k`, space-separated ("flags appended"). -/
def envAppendFlags (e : Env) (k v : String) : Env :=
  fun x => if x = k then some (appendedVal (e k) v) else e x

/-- The inputs `setup_build_environment` reads besides the spec: whether
`which('xiar')` finds the Intel archiver, the Spack compiler wrapper
path `spack_cc`, and the nvcc path `self.spec['cuda'].prefix.bin.nvcc`
of the cuda dependency. -/
structure BuildContext where
  spec : Spec
  xiarAvailable : Bool
  spack_cc : String
  cudaNvccPath : String
deriving Repr, DecidableEq

/-- The vendor vectorization flags the recipe appends for the Intel
compiler: `optflags += ' -xSSE4.2 -axAVX,CORE-AVX2 -ipo'`. -/
def intelVectorFlags : String := " -xSSE4.2 -axAVX,CORE-AVX2 -ipo"

/-- The `optflags` string `setup_build_environment` builds: the baseline
`-O2`, extended with the vendor vectorization flags when the compiler
name is `intel`. -/
def optflags (ctx : BuildContext) : String :=
  if ctx.spec.compilerName = "intel" then "-O2" ++ intelVectorFlags else "-O2"

/-- The first value of the multi-valued `cuda_arch` variant, as the
recipe reads it: `self.spec.variants['cuda_arch'].value[0]`. -/
def cudaArchValue (s : Spec) : String := s.cuda_arch.headD ""

/-- The `setup_build_environment` method: build `optflags` (setting
`AR` to `xiar` for the Intel compiler when available), append `optflags`
to `CFLAGS` and `FCFLAGS`, and under `+cuda` route `CCLD` and `CC`
through nvcc with `-ccbin <spack_cc>` and append `-arch=sm_<arch>` to
`CFLAGS` when the first `cuda_arch` value is not `none`. -/
def setup_build_environment (ctx : BuildContext) (env : Env) : Env :=
  let env :=
    if ctx.spec.compilerName = "intel" then
      if ctx.xiarAvailable then envSet env "AR" "xiar" else env
    else env
  let env := envAppendFlags env "CFLAGS" (optflags ctx)
  let env := envAppendFlags env "FCFLAGS" (optflags ctx)
  if ctx.spec.cuda then
    let nvcc := ctx.cudaNvccPath
    let env := envSet env "CCLD" (nvcc ++ " -ccbin " ++ ctx.spack_cc)
    let env := envSet env "CC" (nvcc ++ " -x cu -ccbin " ++ ctx.spack_cc)
    let cuda_arch := cudaArchValue ctx.spec
    if cuda_arch ≠ "none" then
      envAppendFlags env "CFLAGS" ("-arch=sm_" ++ cuda_arch)
    else env
  else env

/-- Claim C3: whenever both the `cuda` and `shared` variants are
selected, conflict validation triggers the declared rule, so the build
is rejected before compilation with the message
`Only ~shared supported with +cuda`. -/
theorem claim_C3 (s : Spec) (h1 : s.shared = true) (h2 : s.cuda = true) :
    "Only ~shared supported with +cuda" ∈ triggeredConflicts s ∧
    triggeredConflicts s ≠ [] := by
  have hmem : "Only ~shared supported with +cuda" ∈ triggeredConflicts s := by
    refine List.mem_map.mpr ⟨libxcConflicts.headD ⟨fun _ => false, ""⟩, ?_, rfl⟩
    refine List.mem_filter.mpr ⟨by simp [libxcConflicts], ?_⟩
    simp [libxcConflicts, h1, h2]
  exact ⟨hmem, List.ne_nil_of_mem hmem⟩

/-- Concrete instance of claim C3: a `+shared +cuda` spec at version
5.0.0 is rejected with the declared message. -/
theorem claim_C3_witness :
    "Only ~shared supported with +cuda" ∈
      triggeredConflicts ⟨[5, 0, 0], true, true, ["none"], "gcc"⟩ :=
  (claim_C3 ⟨[5, 0, 0], true, true, ["none"], "gcc"⟩ rfl rfl).1

/-- Claim C4: selecting the `cuda` variant on any version in the range
`@:4` (up to and including the 4.x series, i.e. below 5) triggers the
declared rule, so the build is rejected with the message
`CUDA support only in libxc 5.0.0 and above`. -/
theorem claim_C4 (s : Spec) (h1 : s.cuda = true)
    (h2 : versionAtMost4 s.version = true) :
    "CUDA support only in libxc 5.0.0 and above" ∈ triggeredConflicts s ∧
    triggeredConflicts s ≠ [] := by
  have hmem : "CUDA support only in libxc 5.0.0 and above" ∈
      triggeredConflicts s := by
    refine List.mem_map.mpr
      ⟨⟨fun s => s.cuda && versionAtMost4 s.version,
        "CUDA support only in libxc 5.0.0 and above"⟩, ?_, rfl⟩
    refine List.mem_filter.mpr ⟨by simp [libxcConflicts], ?_⟩
    simp [h1, h2]
  exact ⟨hmem, List.ne_nil_of_mem hmem⟩

/-- Concrete instance of claim C4: a `+cuda` spec at version 4.3.4 is
rejected with the declared message. -/
theorem claim_C4_witness :
    "CUDA support only in libxc 5.0.0 and above" ∈
      triggeredConflicts ⟨[4, 3, 4], false, true, ["none"], "gcc"⟩ :=
  (claim_C4 ⟨[4, 3, 4], false, true, ["none"], "gcc"⟩ rfl rfl).1

/-- After `setup_build_environment`, `FCFLAGS` is exactly the previous
value with `optflags` appended. -/
theorem sbe_FCFLAGS (ctx : BuildContext) (env : Env) :
    setup_build_environment ctx env "FCFLAGS"
      = some (appendedVal (env "FCFLAGS") (optflags ctx)) := by
  by_cases hi : ctx.spec.compilerName = "intel" <;>
  by_cases hx : ctx.xiarAvailable = true <;>
  by_cases hc : ctx.spec.cuda = true <;>
  by_cases ha : cudaArchValue ctx.spec = "none" <;>
    simp [setup_build_environment, envSet, envAppendFlags, hi, hx, hc, ha]

/-- Without `+cuda`, `CFLAGS` is exactly the previous value with
`optflags` appended. -/
theorem sbe_CFLAGS_nocuda (ctx : BuildContext) (env : Env)
    (hc : ctx.spec.cuda = false) :
    setup_build_environment ctx env "CFLAGS"
      = some (appendedVal (env "CFLAGS") (optflags ctx)) := by
  by_cases hi : ctx.spec.compilerName = "intel" <;>
  by_cases hx : ctx.xiarAvailable = true <;>
    simp [setup_build_environment, envSet, envAppendFlags, hi, hx, hc]

/-- With `+cuda` and first `cuda_arch` value `none`, `CFLAGS` is exactly
the previous value with `optflags` appended: no architecture flag. -/
theorem sbe_CFLAGS_cuda_none (ctx : BuildContext) (env : Env)
    (hc : ctx.spec.cuda = true) (ha : cudaArchValue ctx.spec = "none") :
    setup_build_environment ctx env "CFLAGS"
      = some (appendedVal (env "CFLAGS") (optflags ctx)) := by
  by_cases hi : ctx.spec.compilerName = "intel" <;>
  by_cases hx : ctx.xiarAvailable = true <;>
    simp [setup_build_environment, envSet, envAppendFlags, hi, hx, hc, ha]

/-- With `+cuda` and first `cuda_arch` value other than `none`, `CFLAGS`
gets `optflags` and then the `-arch=sm_` flag appended. -/
theorem sbe_CFLAGS_cuda_arch (ctx : BuildContext) (env : Env)
    (hc : ctx.spec.cuda = true) (ha : ¬ cudaArchValue ctx.spec = "none") :
    setup_build_environment ctx env "CFLAGS"
      = some (appendedVal (some (appendedVal (env "CFLAGS") (optflags ctx)))
          ("-arch=sm_" ++ cudaArchValue ctx.spec)) := by
  by_cases hi : ctx.spec.compilerName = "intel" <;>
  by_cases hx : ctx.xiarAvailable = true <;>
    simp [setup_build_environment, envSet, envAppendFlags, hi, hx, hc, ha]

/-- With `+cuda`, `CC` is set to the nvcc command with `-x cu` and
`-ccbin` pointing at the Spack compiler wrapper. -/
theorem sbe_CC_cuda (ctx : BuildContext) (env : Env)
    (hc : ctx.spec.cuda = true) :
    setup_build_environment ctx env "CC"
      = some (ctx.cudaNvccPath ++ " -x cu -ccbin " ++ ctx.spack_cc) := by
  by_cases hi : ctx.spec.compilerName = "intel" <;>
  by_cases hx : ctx.xiarAvailable = true <;>
  by_cases ha : cudaArchValue ctx.spec = "none" <;>
    simp [setup_build_environment, envSet, envAppendFlags, hi, hx, hc, ha]

/-- With `+cuda`, `CCLD` is set to the nvcc command with `-ccbin`
pointing at the Spack compiler wrapper. -/
theorem sbe_CCLD_cuda (ctx : BuildContext) (env : Env)
    (hc : ctx.spec.cuda = true) :
    setup_build_environment ctx env "CCLD"
      = some (ctx.cudaNvccPath ++ " -ccbin " ++ ctx.spack_cc) := by
  by_cases hi : ctx.spec.compilerName = "intel" <;>
  by_cases hx : ctx.xiarAvailable = true <;>
  by_cases ha : cudaArchValue ctx.spec = "none" <;>
    simp [setup_build_environment, envSet, envAppendFlags, hi, hx, hc, ha]

/-- For the Intel compiler with `xiar` available, `AR` is set to
`xiar`. -/
theorem sbe_AR_set (ctx : BuildContext) (env : Env)
    (hi : ctx.spec.compilerName = "intel") (hx : ctx.xiarAvailable = true) :
    setup_build_environment ctx env "AR" = some "xiar" := by
  by_cases hc : ctx.spec.cuda = true <;>
  by_cases ha : cudaArchValue ctx.spec = "none" <;>
    simp [setup_build_environment, envSet, envAppendFlags, hi, hx, hc, ha]

/-- Unless the compiler is Intel and `xiar` is available, `AR` is left
untouched. -/
theorem sbe_AR_id (ctx : BuildContext) (env : Env)
    (h : ¬ (ctx.spec.compilerName = "intel" ∧ ctx.xiarAvailable = true)) :
    setup_build_environment ctx env "AR" = env "AR" := by
  by_cases hi : ctx.spec.compilerName = "intel" <;>
  by_cases hx : ctx.xiarAvailable = true
  · exact absurd ⟨hi, hx⟩ h
  all_goals
    by_cases hc : ctx.spec.cuda = true <;>
    by_cases ha : cudaArchValue ctx.spec = "none" <;>
      simp [setup_build_environment, envSet, envAppendFlags, hi, hx, hc, ha]

/-- Every variable other than `AR`, `CFLAGS`, `FCFLAGS`, `CC` and `CCLD`
is left untouched by `setup_build_environment`. -/
theorem sbe_frame (ctx : BuildContext) (env : Env) (k : String)
    (h1 : ¬ k = "AR") (h2 : ¬ k = "CFLAGS") (h3 : ¬ k = "FCFLAGS")
    (h4 : ¬ k = "CC") (h5 : ¬ k = "CCLD") :
    setup_build_environment ctx env k = env k := by
  by_cases hi : ctx.spec.compilerName = "intel" <;>
  by_cases hx : ctx.xiarAvailable = true <;>
  by_cases hc : ctx.spec.cuda = true <;>
  by_cases ha : cudaArchValue ctx.spec = "none" <;>
    simp [setup_build_environment, envSet, envAppendFlags, hi, hx, hc, ha,
      h1, h2, h3, h4, h5]

/-- Claim C7 (for every build instance): `setup_build_environment`
appends `optflags` to both `CFLAGS` and `FCFLAGS`, where `optflags` is
the baseline `-O2`, extended by the Intel vectorization flags exactly
when the compiler is `intel`; for `intel` with `xiar` available it sets
`AR` to `xiar` and otherwise leaves `AR` alone; and it mutates no
variable outside `AR`, `CFLAGS`, `FCFLAGS`, `CC`, `CCLD` (its only
effect is on the environment set). -/
theorem claim_C7 (ctx : BuildContext) (env : Env) :
    setup_build_environment ctx env "FCFLAGS"
        = some (appendedVal (env "FCFLAGS") (optflags ctx)) ∧
    (setup_build_environment ctx env "CFLAGS"
        = some (appendedVal (env "CFLAGS") (optflags ctx)) ∨
      ∃ extra, setup_build_environment ctx env "CFLAGS"
        = some (appendedVal (some (appendedVal (env "CFLAGS") (optflags ctx)))
            extra)) ∧
    (ctx.spec.compilerName = "intel" →
      optflags ctx = "-O2" ++ intelVectorFlags) ∧
    (¬ ctx.spec.compilerName = "intel" → optflags ctx = "-O2") ∧
    (ctx.spec.compilerName = "intel" → ctx.xiarAvailable = true →
      setup_build_environment ctx env "AR" = some "xiar") ∧
    (¬ (ctx.spec.compilerName = "intel" ∧ ctx.xiarAvailable = true) →
      setup_build_environment ctx env "AR" = env "AR") ∧
    (∀ k, ¬ k = "AR" → ¬ k = "CFLAGS" → ¬ k = "FCFLAGS" → ¬ k = "CC" →
      ¬ k = "CCLD" → setup_build_environment ctx env k = env k) := by
  refine ⟨sbe_FCFLAGS ctx env, ?_, ?_, ?_,
    fun hi hx => sbe_AR_set ctx env hi hx, fun h => sbe_AR_id ctx env h,
    fun k h1 h2 h3 h4 h5 => sbe_frame ctx env k h1 h2 h3 h4 h5⟩
  · by_cases hc : ctx.spec.cuda = true
    · by_cases ha : cudaArchValue ctx.spec = "none"
      · exact Or.inl (sbe_CFLAGS_cuda_none ctx env hc ha)
      · exact Or.inr ⟨"-arch=sm_" ++ cudaArchValue ctx.spec,
          sbe_CFLAGS_cuda_arch ctx env hc ha⟩
    · exact Or.inl (sbe_CFLAGS_nocuda ctx env (by simpa using hc))
  · intro hi
    simp [optflags, hi]
  · intro hi
    simp [optflags, hi]

/-- Concrete instance of claim C7: on an Intel build with `xiar`
available and an initially empty environment, `AR` becomes `xiar` and
`FCFLAGS` becomes the `-O2` baseline plus the vectorization flags. -/
theorem claim_C7_witness :
    setup_build_environment
        ⟨⟨[5, 0, 0], true, false, ["none"], "intel"⟩, true, "cc", "nvcc"⟩
        (fun _ => none) "AR" = some "xiar" ∧
    setup_build_environment
        ⟨⟨[5, 0, 0], true, false, ["none"], "intel"⟩, true, "cc", "nvcc"⟩
        (fun _ => none) "FCFLAGS"
      = some "-O2 -xSSE4.2 -axAVX,CORE-AVX2 -ipo" := by
  have h := claim_C7
    ⟨⟨[5, 0, 0], true, false, ["none"], "intel"⟩, true, "cc", "nvcc"⟩
    (fun _ => none)
  refine ⟨h.2.2.2.2.1 rfl rfl, ?_⟩
  have hf := h.1
  simpa [optflags, intelVectorFlags, appendedVal] using hf

/-- Claim C9: with `+cuda` selected and the first `cuda_arch` value
equal to `none`, the `CC` and `CCLD` rewrites through nvcc still occur,
but `CFLAGS` receives no `-arch=sm_` flag: it holds exactly the previous
value with `optflags` appended. -/
theorem claim_C9 (ctx : BuildContext) (env : Env)
    (hc : ctx.spec.cuda = true) (ha : cudaArchValue ctx.spec = "none") :
    setup_build_environment ctx env "CC"
      = some (ctx.cudaNvccPath ++ " -x cu -ccbin " ++ ctx.spack_cc) ∧
    setup_build_environment ctx env "CCLD"
      = some (ctx.cudaNvccPath ++ " -ccbin " ++ ctx.spack_cc) ∧
    setup_build_environment ctx env "CFLAGS"
      = some (appendedVal (env "CFLAGS") (optflags ctx)) :=
  ⟨sbe_CC_cuda ctx env hc, sbe_CCLD_cuda ctx env hc,
    sbe_CFLAGS_cuda_none ctx env hc ha⟩

/-- Concrete instance of claim C9: a `+cuda` build with
`cuda_arch=none` from an empty environment. -/
theorem claim_C9_witness :
    setup_build_environment
        ⟨⟨[5, 0, 0], false, true, ["none"], "gcc"⟩, false, "cc", "nvcc"⟩
        (fun _ => none) "CC"
      = some ("nvcc" ++ " -x cu -ccbin " ++ "cc") ∧
    setup_build_environment
        ⟨⟨[5, 0, 0], false, true, ["none"], "gcc"⟩, false, "cc", "nvcc"⟩
        (fun _ => none) "CCLD"
      = some ("nvcc" ++ " -ccbin " ++ "cc") ∧
    setup_build_environment
        ⟨⟨[5, 0, 0], false, true, ["none"], "gcc"⟩, false, "cc", "nvcc"⟩
        (fun _ => none) "CFLAGS"
      = some (appendedVal ((fun _ => none : Env) "CFLAGS")
          (optflags ⟨⟨[5, 0, 0], false, true, ["none"], "gcc"⟩, false,
            "cc", "nvcc"⟩)) :=
  claim_C9
    ⟨⟨[5, 0, 0], false, true, ["none"], "gcc"⟩, false, "cc", "nvcc"⟩
    (fun _ => none) rfl rfl

/-- Counterexample to claim C6 as stated: a `+cuda` build instance whose
selected `cuda_arch` value is `none`.  Starting from an empty
environment, `CFLAGS` ends as exactly `-O2`, not as `-O2` with the
`-arch=sm_none` flag appended, so no architecture flag derived from the
selected target was appended to `CFLAGS`. -/
theorem claim_C6_counterexample :
    setup_build_environment
        ⟨⟨[5, 0, 0], false, true, ["none"], "gcc"⟩, false, "cc", "nvcc"⟩
        (fun _ => none) "CFLAGS" = some "-O2" ∧
    ¬ some "-O2" = some (appendedVal (some "-O2") ("-arch=sm_" ++ "none")) := by
  constructor
  · rfl
  · decide

/-- Claim C6 as amended: with `+cuda` selected and the first `cuda_arch`
value not `none`, `setup_build_environment` sets `CC` and `CCLD` to
commands routed through nvcc with `-ccbin` pointing at the build
compiler, and appends `-arch=sm_<target>` to `CFLAGS`. -/
theorem claim_C6_amended (ctx : BuildContext) (env : Env)
    (hc : ctx.spec.cuda = true) (ha : ¬ cudaArchValue ctx.spec = "none") :
    setup_build_environment ctx env "CC"
      = some (ctx.cudaNvccPath ++ " -x cu -ccbin " ++ ctx.spack_cc) ∧
    setup_build_environment ctx env "CCLD"
      = some (ctx.cudaNvccPath ++ " -ccbin " ++ ctx.spack_cc) ∧
    setup_build_environment ctx env "CFLAGS"
      = some (appendedVal (some (appendedVal (env "CFLAGS") (optflags ctx)))
          ("-arch=sm_" ++ cudaArchValue ctx.spec)) :=
  ⟨sbe_CC_cuda ctx env hc, sbe_CCLD_cuda ctx env hc,
    sbe_CFLAGS_cuda_arch ctx env hc ha⟩

/-- Concrete instance of amended claim C6: a `+cuda` build with
`cuda_arch=70` from an empty environment. -/
theorem claim_C6_amended_witness :
    setup_build_environment
        ⟨⟨[5, 0, 0], false, true, ["70"], "gcc"⟩, false, "cc", "nvcc"⟩
        (fun _ => none) "CC"
      = some ("nvcc" ++ " -x cu -ccbin " ++ "cc") ∧
    setup_build_environment
        ⟨⟨[5, 0, 0], false, true, ["70"], "gcc"⟩, false, "cc", "nvcc"⟩
        (fun _ => none) "CCLD"
      = some ("nvcc" ++ " -ccbin " ++ "cc") ∧
    setup_build_environment
        ⟨⟨[5, 0, 0], false, true, ["70"], "gcc"⟩, false, "cc", "nvcc"⟩
        (fun _ => none) "CFLAGS"
      = some (appendedVal (some (appendedVal ((fun _ => none : Env) "CFLAGS")
          (optflags ⟨⟨[5, 0, 0], false, true, ["70"], "gcc"⟩, false,
            "cc", "nvcc"⟩)))
          ("-arch=sm_" ++
            cudaArchValue ⟨[5, 0, 0], false, true, ["70"], "gcc"⟩)) :=
  claim_C6_amended
    ⟨⟨[5, 0, 0], false, true, ["70"], "gcc"⟩, false, "cc", "nvcc"⟩
    (fun _ => none) rfl (by decide)

end Libxc
